import Mathlib

/-!
A verification model of the "Vikas AI" FastAPI video-processing backend:
the `VideoProcessor` class and the `/process` endpoint (`process_video`),
together with the request schema `ProcessRequest` and its validation.

The file system is modelled as an association list from path strings to
abstract media contents; the external `ffmpeg` transcoder is modelled as an
opaque collaborator through a per-operation failure oracle carried in the
environment.  Python exceptions are modelled with an explicit error type,
and the endpoint's blanket `except Exception` handler is modelled by the
wrapper that turns every internal error into an HTTP 500 response, exactly
as the source does.
-/

namespace VikasAI

/-- Abstract contents of a media file.  `bytes` is an opaque uploaded blob;
the other constructors record what the external transcoder produced from
which sources. -/
inductive Content where
  | bytes (id : Nat)
  | transcoded (filters : List String) (src : Content)
  | audioOnly (codec : String) (src : Content)
  | trimmed (duration : Nat) (src : Content)
  | muxed (video : Content) (audio : Content)
deriving DecidableEq, Repr

/-- The file system: an association list from full path strings to contents.
The most recent write to a path shadows older entries. -/
abbrev FS := List (String × Content)

/-- Look up a path; the first (most recent) entry wins. -/
def fsGet : FS → String → Option Content
  | [], _ => none
  | (p, c) :: rest, q => if q = p then some c else fsGet rest q

/-- Write (create or overwrite) a file. -/
def fsSet (fs : FS) (p : String) (c : Content) : FS := (p, c) :: fs

/-- Delete a file (os.remove); removing a missing file leaves the fs alone. -/
def fsRemove (fs : FS) (p : String) : FS := fs.filter (fun e => e.1 ≠ p)

/-- The ffmpeg invocations made by the four transcoding steps.  The failure
oracle of the environment says which of them fail (nonzero exit of the
external tool). -/
inductive FfmpegOp where
  | enhanceOp
  | extractOp
  | shortOp
  | replaceOp
deriving DecidableEq, Repr

/-- The environment of one request: the shared file system plus the
behaviour of the opaque external transcoder. -/
structure Env where
  fs : FS
  ffmpegFails : FfmpegOp → Bool

/-- Python exceptions that can escape the pipeline's steps. -/
inductive PyExc where
  | httpException (status : Nat) (detail : String)
  | runtimeError (msg : String)
deriving DecidableEq, Repr

/-- str(e) for the modelled exceptions (starlette's HTTPException prints as
"status: detail"). -/
def PyExc.message : PyExc → String
  | .httpException status detail => toString status ++ ": " ++ detail
  | .runtimeError msg => msg

/-- One HTTP error response as produced by raising fastapi.HTTPException. -/
structure HTTPError where
  status : Nat
  detail : String
deriving DecidableEq, Repr

/-- The pydantic request model of the /process endpoint, with its field
defaults. -/
structure ProcessRequest where
  filename : String
  voice_file : Option String := none
  enhance : Bool := true
  remove_watermark : Bool := false
  replace_voice : Bool := false
  create_short : Bool := true
deriving DecidableEq, Repr

/-- The VideoProcessor object: the input path it was constructed with and
its (never populated) list of temporary files. -/
structure VideoProcessor where
  input_path : String
  temp_files : List String
deriving DecidableEq, Repr

/-- VideoProcessor.cleanup: os.remove every registered temporary file. -/
def cleanup (proc : VideoProcessor) (fs : FS) : FS :=
  proc.temp_files.foldl fsRemove fs

/-- The enhancement sub-options dict passed to enhance_video. -/
structure EnhanceOptions where
  denoise : Bool
  sharpen : Bool
  color_correct : Bool
deriving DecidableEq, Repr

/-- The filter chain built by enhance_video: one ffmpeg filter per enabled
option, in the source's fixed order. -/
def enhanceFilters (options : EnhanceOptions) : List String :=
  (if options.denoise then ["hqdn3d=1.5:1.5:6:6"] else []) ++
  (if options.sharpen then ["unsharp=5:5:0.8:3:3:0.4"] else []) ++
  (if options.color_correct then ["eq=contrast=1.05:brightness=0.02:saturation=1.05"] else [])

/-- VideoProcessor.enhance_video: re-encode the input with the enabled
filters; raises RuntimeError when the ffmpeg run fails (also when the input
cannot be read by the tool). -/
def enhance_video (env : Env) (proc : VideoProcessor) (output_path : String)
    (options : EnhanceOptions) : Except PyExc FS :=
  if env.ffmpegFails .enhanceOp then
    .error (.runtimeError "Video enhancement failed")
  else
    match fsGet env.fs proc.input_path with
    | none => .error (.runtimeError "Video enhancement failed")
    | some c => .ok (fsSet env.fs output_path (.transcoded (enhanceFilters options) c))

/-- shutil.copy2: duplicate the bytes of src into dst. -/
def copy2 (fs : FS) (src dst : String) : Except PyExc FS :=
  match fsGet fs src with
  | none => .error (.runtimeError "No such file or directory")
  | some c => .ok (fsSet fs dst c)

/-- VideoProcessor.remove_watermark: the placeholder step, a copy-through of
the input bytes via shutil.copy2. -/
def remove_watermark (env : Env) (proc : VideoProcessor) (output_path : String) :
    Except PyExc FS :=
  copy2 env.fs proc.input_path output_path

/-- VideoProcessor.extract_audio: audio-only re-encode of the input. -/
def extract_audio (env : Env) (proc : VideoProcessor) (output_path : String)
    (format : String) : Except PyExc FS :=
  if env.ffmpegFails .extractOp then
    .error (.runtimeError "Audio extraction failed")
  else
    match fsGet env.fs proc.input_path with
    | none => .error (.runtimeError "Audio extraction failed")
    | some c =>
        .ok (fsSet env.fs output_path
          (.audioOnly (if format = "mp3" then "libmp3lame" else "aac") c))

/-- VideoProcessor.create_short: trim the input to its first `duration`
seconds. -/
def create_short (env : Env) (proc : VideoProcessor) (output_path : String)
    (duration : Nat) : Except PyExc FS :=
  if env.ffmpegFails .shortOp then
    .error (.runtimeError "Short creation failed")
  else
    match fsGet env.fs proc.input_path with
    | none => .error (.runtimeError "Short creation failed")
    | some c => .ok (fsSet env.fs output_path (.trimmed duration c))

/-- VideoProcessor.replace_audio: mux the video stream of the processor's
own input path (not of any produced artifact) with the audio stream of
`audio_path`. -/
def replace_audio (env : Env) (proc : VideoProcessor) (audio_path output_path : String) :
    Except PyExc FS :=
  if env.ffmpegFails .replaceOp then
    .error (.runtimeError "Audio replacement failed")
  else
    match fsGet env.fs proc.input_path, fsGet env.fs audio_path with
    | some cv, some ca => .ok (fsSet env.fs output_path (.muxed cv ca))
    | _, _ => .error (.runtimeError "Audio replacement failed")

/-- Split a character list at every occurrence of the separator. -/
def splitOnChar (c : Char) : List Char → List (List Char)
  | [] => [[]]
  | x :: xs =>
      match splitOnChar c xs, decide (x = c) with
      | r, true => [] :: r
      | [], false => [[x]]
      | y :: ys, false => (x :: y) :: ys

/-- Join character lists with a dot separator. -/
def joinDot : List (List Char) → List Char
  | [] => []
  | [x] => x
  | x :: xs => x ++ '.' :: joinDot xs

/-- os.path.splitext, base part: everything before the last dot.  (The
corner case of names whose basename starts with a dot is not needed here.) -/
def splitextBase (s : String) : String :=
  match splitOnChar '.' s.data with
  | [] => s
  | [_] => s
  | parts => ⟨joinDot parts.dropLast⟩

/-- os.path.basename for the slash-joined paths used here. -/
def basename (s : String) : String := ⟨(splitOnChar '/' s.data).getLastD s.data⟩

/-- The five artifact roles of the outputs dict built by process_video. -/
inductive Role where
  | enhanced
  | no_watermark
  | audio
  | short
  | final
deriving DecidableEq, Repr

/-- The role-specific infix of each output filename. -/
def roleMid : Role → String
  | .enhanced => "_enhanced_"
  | .no_watermark => "_nowm_"
  | .audio => "_audio_"
  | .short => "_short_"
  | .final => "_final_"

/-- The extension of each output filename. -/
def roleExt : Role → String
  | .audio => ".mp3"
  | _ => ".mp4"

/-- outputs[role] = os.path.join(OUTPUT_DIR, base_name + mid + timestamp + ext),
exactly the f-strings of the source's outputs dict. -/
def rolePath (base_name timestamp : String) (r : Role) : String :=
  ("outputs/" ++ base_name) ++ (roleMid r ++ (timestamp ++ roleExt r))

/-- The outputs dict prepared by process_video. -/
structure Downloads where
  enhanced : String
  no_watermark : String
  audio : String
  short : String
  final : String
deriving DecidableEq, Repr

def outputsFor (base_name timestamp : String) : Downloads :=
  ⟨rolePath base_name timestamp .enhanced,
   rolePath base_name timestamp .no_watermark,
   rolePath base_name timestamp .audio,
   rolePath base_name timestamp .short,
   rolePath base_name timestamp .final⟩

/-- The JSON body of a successful /process response. -/
structure ProcessResponse where
  success : Bool
  job_id : String
  downloads : Downloads
deriving DecidableEq, Repr

/-- Python truthiness of the optional voice_file string:
None and the empty string are falsy. -/
def pyTruthy : Option String → Bool
  | none => false
  | some s => s ≠ ""

/-- The options dict the endpoint passes to enhance_video: all three
sub-filters are tied to the single request.enhance boolean. -/
def endpointEnhanceOptions (req : ProcessRequest) : EnhanceOptions :=
  ⟨req.enhance, req.enhance, req.enhance⟩

/-- The try-block body of the /process endpoint: validate the input path,
run the five pipeline stages in order, clean up, and assemble the response.
Any step error aborts the rest of the body and is returned together with
the file system at the moment of failure. -/
def processBody (env : Env) (req : ProcessRequest) (timestamp job_id : String) :
    FS × Except PyExc ProcessResponse :=
  let input_path := "uploads/" ++ req.filename
  match fsGet env.fs input_path with
  | none => (env.fs, .error (.httpException 404 "Video file not found"))
  | some _ =>
    let processor : VideoProcessor := ⟨input_path, []⟩
    let base_name := splitextBase req.filename
    let outputs := outputsFor base_name timestamp
    match enhance_video env processor outputs.enhanced (endpointEnhanceOptions req) with
    | .error e => (env.fs, .error e)
    | .ok fs1 =>
      match remove_watermark ⟨fs1, env.ffmpegFails⟩ processor outputs.no_watermark with
      | .error e => (fs1, .error e)
      | .ok fs2 =>
        match extract_audio ⟨fs2, env.ffmpegFails⟩ processor outputs.audio "mp3" with
        | .error e => (fs2, .error e)
        | .ok fs3 =>
          match (if req.create_short then
                   create_short ⟨fs3, env.ffmpegFails⟩ processor outputs.short 30
                 else .ok fs3) with
          | .error e => (fs3, .error e)
          | .ok fs4 =>
            match (if req.replace_voice && pyTruthy req.voice_file then
                     let voice_path := "uploads/" ++ req.voice_file.getD ""
                     if (fsGet fs4 voice_path).isSome then
                       replace_audio ⟨fs4, env.ffmpegFails⟩ processor voice_path outputs.final
                     else
                       copy2 fs4 outputs.no_watermark outputs.final
                   else copy2 fs4 outputs.no_watermark outputs.final) with
            | .error e => (fs4, .error e)
            | .ok fs5 =>
              let fs6 := cleanup processor fs5
              (fs6, .ok
                ⟨true, job_id,
                 ⟨"/download/" ++ basename outputs.enhanced,
                  "/download/" ++ basename outputs.no_watermark,
                  "/download/" ++ basename outputs.audio,
                  "/download/" ++ basename outputs.short,
                  "/download/" ++ basename outputs.final⟩⟩)

/-- The /process endpoint: the try-block body with the blanket
except-Exception handler that re-raises every failure (including the
internal 404 HTTPException) as HTTPException(500, "Processing failed: ..."). -/
def process_video (env : Env) (req : ProcessRequest) (timestamp job_id : String) :
    FS × Except HTTPError ProcessResponse :=
  match processBody env req timestamp job_id with
  | (fs, .ok resp) => (fs, .ok resp)
  | (fs, .error e) => (fs, .error ⟨500, "Processing failed: " ++ e.message⟩)

/-- A JSON value as far as the request schema is concerned. -/
inductive JsonValue where
  | str (s : String)
  | bool (b : Bool)
  | null
deriving DecidableEq, Repr

/-- Key lookup in a JSON object (first binding wins). -/
def jlookup : List (String × JsonValue) → String → Option JsonValue
  | [], _ => none
  | (k, v) :: rest, q => if q = k then some v else jlookup rest q

/-- pydantic validation of one boolean field with a default: absent means
the default, a boolean is taken as is, any other value is a validation
error. -/
def parseBoolField (obj : List (String × JsonValue)) (key : String) (dflt : Bool) :
    Option Bool :=
  match jlookup obj key with
  | none => some dflt
  | some (.bool b) => some b
  | some _ => none

/-- pydantic validation of a /process request body against ProcessRequest:
filename is a required string, voice_file an optional string, the four step
flags are booleans with their declared defaults.  Keys outside the declared
fields are ignored (the default pydantic model config). -/
def parseProcessRequest (obj : List (String × JsonValue)) : Option ProcessRequest :=
  match jlookup obj "filename" with
  | some (.str filename) =>
    (match jlookup obj "voice_file" with
     | none => some none
     | some .null => some none
     | some (.str v) => some (some v)
     | some (.bool _) => none).bind fun voice_file =>
    (parseBoolField obj "enhance" true).bind fun e =>
    (parseBoolField obj "remove_watermark" false).bind fun rw =>
    (parseBoolField obj "replace_voice" false).bind fun rv =>
    (parseBoolField obj "create_short" true).bind fun cs =>
    some ⟨filename, voice_file, e, rw, rv, cs⟩
  | _ => none

/-- The file system after the first three pipeline stages succeeded on input
content `c`: enhanced, no_watermark and audio artifacts written. -/
def pipeline3FS (env : Env) (req : ProcessRequest) (ts : String) (c : Content) : FS :=
  fsSet
    (fsSet
      (fsSet env.fs (rolePath (splitextBase req.filename) ts .enhanced)
        (.transcoded (enhanceFilters (endpointEnhanceOptions req)) c))
      (rolePath (splitextBase req.filename) ts .no_watermark) c)
    (rolePath (splitextBase req.filename) ts .audio) (.audioOnly "libmp3lame" c)

/-- The file system after the first four pipeline stages (the short clip is
only written when requested). -/
def pipelineFS (env : Env) (req : ProcessRequest) (ts : String) (c : Content) : FS :=
  if req.create_short then
    fsSet (pipeline3FS env req ts c) (rolePath (splitextBase req.filename) ts .short)
      (.trimmed 30 c)
  else pipeline3FS env req ts c

/-- The downloads manifest the endpoint returns for a given base name and
timestamp. -/
def dlFor (b ts : String) : Downloads :=
  ⟨"/download/" ++ basename (rolePath b ts .enhanced),
   "/download/" ++ basename (rolePath b ts .no_watermark),
   "/download/" ++ basename (rolePath b ts .audio),
   "/download/" ++ basename (rolePath b ts .short),
   "/download/" ++ basename (rolePath b ts .final)⟩

/-- A transcoder that never fails. -/
def noFail : FfmpegOp → Bool := fun _ => false

/-- A transcoder whose create_short invocation fails (for example on a
corrupt parameter), all other invocations succeeding. -/
def shortFail : FfmpegOp → Bool := fun op => op = .shortOp

/-- A one-file environment: a single uploaded video, healthy transcoder. -/
def envOk : Env := ⟨[("uploads/a.mp4", .bytes 0)], noFail⟩

/-- The same upload with the failing create_short transcoder. -/
def shortFailEnv : Env := ⟨[("uploads/a.mp4", .bytes 0)], shortFail⟩

/-- A request for the full step set on a.mp4 (all defaults). -/
def reqA : ProcessRequest := ⟨"a.mp4", none, true, false, false, true⟩

/-- A request that also asks for voice replacement with voice file v.mp3. -/
def reqV : ProcessRequest := ⟨"a.mp4", some "v.mp3", true, false, true, true⟩

/-- An environment holding both the video and the voice sample. -/
def envV : Env := ⟨[("uploads/a.mp4", .bytes 0), ("uploads/v.mp3", .bytes 7)], noFail⟩

/-- First of two invocations of the same job in the same second. -/
def run1 : FS × Except HTTPError ProcessResponse := process_video envOk reqA "100" "job-1"

/-- Second invocation of the same job in the same second (fresh job id, file
system as the first invocation left it). -/
def run2 : FS × Except HTTPError ProcessResponse :=
  process_video ⟨run1.1, noFail⟩ reqA "100" "job-2"

/-! ## Basic lemmas about strings, the file system and the output paths -/

theorem data_append (s t : String) : (s ++ t).data = s.data ++ t.data := rfl

theorem eq_of_data_eq {s t : String} (h : s.data = t.data) : s = t := by
  cases s; cases t; exact congrArg String.mk h

@[simp] theorem fsGet_set (fs : FS) (p : String) (c : Content) (q : String) :
    fsGet (fsSet fs p c) q = if q = p then some c else fsGet fs q := rfl

/-- The first character after the underscore of each role's filename infix:
the five roles are told apart by it. -/
def roleKey : Role → Char
  | .enhanced => 'e'
  | .no_watermark => 'n'
  | .audio => 'a'
  | .short => 's'
  | .final => 'f'

/-- The remaining characters of each role's filename infix. -/
def roleMidTail : Role → List Char
  | .enhanced => ['n', 'h', 'a', 'n', 'c', 'e', 'd', '_']
  | .no_watermark => ['o', 'w', 'm', '_']
  | .audio => ['u', 'd', 'i', 'o', '_']
  | .short => ['h', 'o', 'r', 't', '_']
  | .final => ['i', 'n', 'a', 'l', '_']

theorem roleMid_data (r : Role) : (roleMid r).data = '_' :: roleKey r :: roleMidTail r := by
  cases r <;> rfl

theorem roleKey_injective {r₁ r₂ : Role} (h : roleKey r₁ = roleKey r₂) : r₁ = r₂ := by
  cases r₁ <;> cases r₂ <;> first
    | rfl
    | exact absurd h (by decide)

theorem rolePath_data (b t : String) (r : Role) :
    (rolePath b t r).data =
      ("outputs/" ++ b).data ++
        ('_' :: roleKey r :: (roleMidTail r ++ (t.data ++ (roleExt r).data))) := by
  cases r <;> rfl

/-- The output paths determine the role and the timestamp: two output paths
of the same base name coincide only for the same role and the same
timestamp. -/
theorem rolePath_inj {b t₁ t₂ : String} {r₁ r₂ : Role}
    (h : rolePath b t₁ r₁ = rolePath b t₂ r₂) : r₁ = r₂ ∧ t₁ = t₂ := by
  have hd := congrArg String.data h
  rw [rolePath_data, rolePath_data] at hd
  have h1 := List.append_cancel_left hd
  injection h1 with h2 h3
  injection h3 with hk h4
  have hr : r₁ = r₂ := roleKey_injective hk
  subst hr
  refine ⟨rfl, ?_⟩
  have h5 := List.append_cancel_left h4
  exact eq_of_data_eq (List.append_cancel_right h5)

@[simp] theorem rolePath_eq_iff (b t₁ t₂ : String) (r₁ r₂ : Role) :
    (rolePath b t₁ r₁ = rolePath b t₂ r₂) ↔ (r₁ = r₂ ∧ t₁ = t₂) := by
  constructor
  · exact rolePath_inj
  · rintro ⟨rfl, rfl⟩; rfl

/-- Uploaded files and produced artifacts live in different directories, so
an upload path never equals an output path. -/
theorem upload_ne_rolePath (f b t : String) (r : Role) :
    "uploads/" ++ f ≠ rolePath b t r := by
  intro h
  have h1 : ("uploads/" ++ f).data.head? = some 'u' := rfl
  have h2 : (rolePath b t r).data.head? = some 'o' := by cases r <;> rfl
  rw [h, h2] at h1
  exact absurd h1 (by decide)

@[simp] theorem upload_eq_rolePath_iff (f b t : String) (r : Role) :
    ("uploads/" ++ f = rolePath b t r) ↔ False :=
  iff_false_intro (upload_ne_rolePath f b t r)

@[simp] theorem rolePath_eq_upload_iff (f b t : String) (r : Role) :
    (rolePath b t r = "uploads/" ++ f) ↔ False :=
  iff_false_intro fun h => upload_ne_rolePath f b t r h.symm

/-! ## Master run lemmas for the /process pipeline -/

/-- A successful run that ends in the fallback copy (voice replacement not
requested or not truthy): every stage writes its artifact and final is a
copy of the no_watermark bytes. -/
theorem processBody_fallback (env : Env) (req : ProcessRequest) (ts jid : String) (c : Content)
    (h_in : fsGet env.fs ("uploads/" ++ req.filename) = some c)
    (h_f : ∀ op, env.ffmpegFails op = false)
    (h_copy : (req.replace_voice && pyTruthy req.voice_file) = false) :
    processBody env req ts jid =
      (fsSet (pipelineFS env req ts c) (rolePath (splitextBase req.filename) ts .final) c,
       .ok ⟨true, jid, dlFor (splitextBase req.filename) ts⟩) := by
  cases hcs : req.create_short <;>
    simp [processBody, enhance_video, remove_watermark, copy2, extract_audio, create_short,
      cleanup, outputsFor, dlFor, pipelineFS, pipeline3FS, h_in, h_f, h_copy, hcs]

/-- A successful run where voice replacement is requested with a truthy but
absent voice file: the step degrades to the fallback copy. -/
theorem processBody_voice_missing (env : Env) (req : ProcessRequest) (ts jid : String)
    (c : Content) (v : String)
    (h_in : fsGet env.fs ("uploads/" ++ req.filename) = some c)
    (h_f : ∀ op, env.ffmpegFails op = false)
    (h_rv : req.replace_voice = true)
    (h_vf : req.voice_file = some v)
    (h_vne : v ≠ "")
    (h_nv : fsGet env.fs ("uploads/" ++ v) = none) :
    processBody env req ts jid =
      (fsSet (pipelineFS env req ts c) (rolePath (splitextBase req.filename) ts .final) c,
       .ok ⟨true, jid, dlFor (splitextBase req.filename) ts⟩) := by
  cases hcs : req.create_short <;>
    simp [processBody, enhance_video, remove_watermark, copy2, extract_audio, create_short,
      cleanup, outputsFor, dlFor, pipelineFS, pipeline3FS, pyTruthy,
      h_in, h_f, h_rv, h_vf, h_vne, h_nv, hcs]

/-- A successful run where voice replacement is requested and the voice file
exists: final is the mux of the original input's video with the voice
audio. -/
theorem processBody_voice_present (env : Env) (req : ProcessRequest) (ts jid : String)
    (c cv : Content) (v : String)
    (h_in : fsGet env.fs ("uploads/" ++ req.filename) = some c)
    (h_f : ∀ op, env.ffmpegFails op = false)
    (h_rv : req.replace_voice = true)
    (h_vf : req.voice_file = some v)
    (h_vne : v ≠ "")
    (h_v : fsGet env.fs ("uploads/" ++ v) = some cv) :
    processBody env req ts jid =
      (fsSet (pipelineFS env req ts c) (rolePath (splitextBase req.filename) ts .final)
        (.muxed c cv),
       .ok ⟨true, jid, dlFor (splitextBase req.filename) ts⟩) := by
  cases hcs : req.create_short <;>
    simp [processBody, enhance_video, remove_watermark, copy2, extract_audio, create_short,
      replace_audio, cleanup, outputsFor, dlFor, pipelineFS, pipeline3FS, pyTruthy,
      h_in, h_f, h_rv, h_vf, h_vne, h_v, hcs]

/-- A run whose create_short transcoder invocation fails: the body stops
there, returning the file system with the first three artifacts written and
the step's RuntimeError. -/
theorem processBody_short_fails (env : Env) (req : ProcessRequest) (ts jid : String)
    (c : Content)
    (h_in : fsGet env.fs ("uploads/" ++ req.filename) = some c)
    (h_e : env.ffmpegFails .enhanceOp = false)
    (h_x : env.ffmpegFails .extractOp = false)
    (h_s : env.ffmpegFails .shortOp = true)
    (h_cs : req.create_short = true) :
    processBody env req ts jid =
      (pipeline3FS env req ts c, .error (.runtimeError "Short creation failed")) := by
  simp [processBody, enhance_video, remove_watermark, copy2, extract_audio, create_short,
    outputsFor, pipeline3FS, h_in, h_e, h_x, h_s, h_cs]

theorem jlookup_append_ne (obj : List (String × JsonValue)) (k q : String) (v : JsonValue)
    (h : q ≠ k) : jlookup (obj ++ [(k, v)]) q = jlookup obj q := by
  induction obj with
  | nil => simp [jlookup, h]
  | cons e rest ih =>
      obtain ⟨k', v'⟩ := e
      simp only [List.cons_append, jlookup]
      split
      · rfl
      · exact ih

theorem parseBoolField_append_ne (obj : List (String × JsonValue)) (k key : String)
    (v : JsonValue) (dflt : Bool) (h : key ≠ k) :
    parseBoolField (obj ++ [(k, v)]) key dflt = parseBoolField obj key dflt := by
  unfold parseBoolField
  rw [jlookup_append_ne obj k key v h]

/-! ## The claims -/

/-- C9: remove_watermark duplicates the input: the produced artifact's
content equals the input's content and the input file itself keeps its
content. -/
theorem C9_remove_watermark_copies (env : Env) (proc : VideoProcessor) (out : String)
    (c : Content) (h : fsGet env.fs proc.input_path = some c) :
    remove_watermark env proc out = .ok (fsSet env.fs out c) ∧
    fsGet (fsSet env.fs out c) out = some c ∧
    fsGet (fsSet env.fs out c) proc.input_path = some c := by
  refine ⟨by simp [remove_watermark, copy2, h], by simp, by simp [h]⟩

/-- C9 witness: the copy-through at a concrete input. -/
theorem C9_witness :
    remove_watermark envOk ⟨"uploads/a.mp4", []⟩ "outputs/nw.mp4" =
      .ok (fsSet envOk.fs "outputs/nw.mp4" (.bytes 0)) ∧
    fsGet (fsSet envOk.fs "outputs/nw.mp4" (.bytes 0)) "outputs/nw.mp4" = some (.bytes 0) ∧
    fsGet (fsSet envOk.fs "outputs/nw.mp4" (.bytes 0)) "uploads/a.mp4" = some (.bytes 0) :=
  C9_remove_watermark_copies envOk ⟨"uploads/a.mp4", []⟩ "outputs/nw.mp4" (.bytes 0) rfl

/-- C10: a /process request whose input file is absent is rejected before
any step runs and before any file is written (the file system is returned
unchanged), but the caller sees HTTP 500, the blanket handler having
re-raised the internal 404 HTTPException. -/
theorem C10_missing_input_rejected_as_500 (env : Env) (req : ProcessRequest)
    (ts jid : String) (h : fsGet env.fs ("uploads/" ++ req.filename) = none) :
    process_video env req ts jid =
      (env.fs, .error ⟨500, "Processing failed: 404: Video file not found"⟩) := by
  simp only [process_video, processBody, h]
  rfl

/-- C10 witness: a concrete request for a file that was never uploaded. -/
theorem C10_witness :
    process_video ⟨[], noFail⟩ ⟨"b.mp4", none, true, false, false, true⟩ "100" "w10" =
      ([], .error ⟨500, "Processing failed: 404: Video file not found"⟩) :=
  C10_missing_input_rejected_as_500 ⟨[], noFail⟩ ⟨"b.mp4", none, true, false, false, true⟩
    "100" "w10" rfl

/-- C5 counterexample: on the exit path where create_short fails, the job
returns an error (so nothing is exposed to the caller), yet the audio and
no_watermark artifacts created before the failure are still on disk when
the job returns: no scoped-resource cleanup ran. -/
theorem C5_counterexample :
    (process_video shortFailEnv reqA "100" "job-5").2 =
      .error ⟨500, "Processing failed: Short creation failed"⟩ ∧
    fsGet (process_video shortFailEnv reqA "100" "job-5").1 "outputs/a_audio_100.mp3" =
      some (.audioOnly "libmp3lame" (.bytes 0)) ∧
    fsGet (process_video shortFailEnv reqA "100" "job-5").1 "outputs/a_nowm_100.mp4" =
      some (.bytes 0) := ⟨rfl, rfl, rfl⟩

/-- C5 (amended): cleanup deletes exactly the files registered in
temp_files, and no step ever registers one, so whenever the processor's
temp_files list is empty (as it is in every run) cleanup deletes nothing;
moreover cleanup is only ever invoked on the success path. -/
theorem C5_cleanup_noop (proc : VideoProcessor) (fs : FS)
    (h : proc.temp_files = []) : cleanup proc fs = fs := by
  simp [cleanup, h]

/-- C5 witness: cleanup at the processor process_video constructs. -/
theorem C5_witness :
    (⟨"uploads/a.mp4", []⟩ : VideoProcessor).temp_files = [] ∧
    cleanup ⟨"uploads/a.mp4", []⟩ envOk.fs = envOk.fs :=
  ⟨rfl, C5_cleanup_noop ⟨"uploads/a.mp4", []⟩ envOk.fs rfl⟩

/-- C6 counterexample: a request body carrying a step name outside the
fixed catalog ("transcribe") is not rejected: validation ignores the
unknown field, and the job then runs to success (files are written). -/
theorem C6_counterexample :
    parseProcessRequest [("filename", .str "a.mp4"), ("transcribe", .bool true)] =
      some ⟨"a.mp4", none, true, false, false, true⟩ ∧
    (process_video envOk ⟨"a.mp4", none, true, false, false, true⟩ "100" "j6").2.toOption.map
      (fun r => r.success) = some true := ⟨rfl, rfl⟩

/-- C6 (amended): the request schema has no step-name set at all, only
fixed boolean fields; a key outside the declared fields is ignored by
validation rather than causing a rejection, so such a request parses
exactly as if the unknown key were not there. -/
theorem C6_unknown_fields_ignored (obj : List (String × JsonValue)) (k : String)
    (v : JsonValue)
    (h : ¬ k ∈ ["filename", "voice_file", "enhance", "remove_watermark",
                "replace_voice", "create_short"]) :
    parseProcessRequest (obj ++ [(k, v)]) = parseProcessRequest obj := by
  simp only [List.mem_cons, List.not_mem_nil, or_false, not_or] at h
  obtain ⟨h1, h2, h3, h4, h5, h6⟩ := h
  unfold parseProcessRequest
  rw [jlookup_append_ne obj k "filename" v (Ne.symm h1),
    jlookup_append_ne obj k "voice_file" v (Ne.symm h2),
    parseBoolField_append_ne obj k "enhance" v true (Ne.symm h3),
    parseBoolField_append_ne obj k "remove_watermark" v false (Ne.symm h4),
    parseBoolField_append_ne obj k "replace_voice" v false (Ne.symm h5),
    parseBoolField_append_ne obj k "create_short" v true (Ne.symm h6)]

/-- C6 witness: an unknown key appended to a concrete valid body changes
nothing about validation. -/
theorem C6_witness :
    ¬ "transcribe" ∈ (["filename", "voice_file", "enhance", "remove_watermark",
        "replace_voice", "create_short"] : List String) ∧
    parseProcessRequest ([("filename", .str "b.mp4")] ++ [("transcribe", .bool true)]) =
      parseProcessRequest [("filename", .str "b.mp4")] :=
  ⟨by decide,
   C6_unknown_fields_ignored [("filename", .str "b.mp4")] "transcribe" (.bool true) (by decide)⟩

/-- C1 counterexample: when create_short's transcoder call fails, the whole
job is rejected (HTTP 500, no manifest) and the final artifact is never
produced — the sibling steps are not isolated from the failure. -/
theorem C1_counterexample :
    (process_video shortFailEnv reqA "100" "job-1").2 =
      .error ⟨500, "Processing failed: Short creation failed"⟩ ∧
    fsGet (process_video shortFailEnv reqA "100" "job-1").1 "outputs/a_final_100.mp4" =
      none := ⟨rfl, rfl⟩

/-- C1 (amended): a create_short failure aborts the job: the enhanced,
no_watermark and audio artifacts produced before the failure remain on
disk, but the final artifact is never produced, no manifest is returned,
and the caller receives HTTP 500. -/
theorem C1_short_failure_aborts_job (env : Env) (req : ProcessRequest) (ts jid : String)
    (c : Content)
    (h_in : fsGet env.fs ("uploads/" ++ req.filename) = some c)
    (h_e : env.ffmpegFails .enhanceOp = false)
    (h_x : env.ffmpegFails .extractOp = false)
    (h_s : env.ffmpegFails .shortOp = true)
    (h_cs : req.create_short = true)
    (h_fresh : fsGet env.fs (rolePath (splitextBase req.filename) ts .final) = none) :
    process_video env req ts jid =
      (pipeline3FS env req ts c, .error ⟨500, "Processing failed: Short creation failed"⟩) ∧
    fsGet (pipeline3FS env req ts c) (rolePath (splitextBase req.filename) ts .enhanced) =
      some (.transcoded (enhanceFilters (endpointEnhanceOptions req)) c) ∧
    fsGet (pipeline3FS env req ts c) (rolePath (splitextBase req.filename) ts .no_watermark) =
      some c ∧
    fsGet (pipeline3FS env req ts c) (rolePath (splitextBase req.filename) ts .audio) =
      some (.audioOnly "libmp3lame" c) ∧
    fsGet (pipeline3FS env req ts c) (rolePath (splitextBase req.filename) ts .final) =
      none := by
  have hb := processBody_short_fails env req ts jid c h_in h_e h_x h_s h_cs
  refine ⟨?_, by simp [pipeline3FS], by simp [pipeline3FS], by simp [pipeline3FS],
    by simp [pipeline3FS, h_fresh]⟩
  simp only [process_video, hb]
  rfl

/-- C1 witness: the aborted job at a concrete input. -/
theorem C1_witness :
    process_video shortFailEnv reqA "100" "w1" =
      (pipeline3FS shortFailEnv reqA "100" (.bytes 0),
       .error ⟨500, "Processing failed: Short creation failed"⟩) ∧
    fsGet (pipeline3FS shortFailEnv reqA "100" (.bytes 0))
      (rolePath (splitextBase reqA.filename) "100" .final) = none :=
  ⟨(C1_short_failure_aborts_job shortFailEnv reqA "100" "w1" (.bytes 0)
      rfl rfl rfl rfl rfl rfl).1,
   (C1_short_failure_aborts_job shortFailEnv reqA "100" "w1" (.bytes 0)
      rfl rfl rfl rfl rfl rfl).2.2.2.2⟩

/-- C2 counterexample: with create_short not requested the job succeeds,
yet the manifest still lists the short role — referencing a path that was
never created — instead of omitting it. -/
theorem C2_counterexample :
    (process_video envOk ⟨"a.mp4", none, true, false, false, false⟩ "100" "j2").2.toOption.map
      (fun r => r.downloads.short) = some "/download/a_short_100.mp4" ∧
    fsGet (process_video envOk ⟨"a.mp4", none, true, false, false, false⟩ "100" "j2").1
      "outputs/a_short_100.mp4" = none := ⟨rfl, rfl⟩

/-- Manifest facts shared by every successful run: the five artifact paths
are pairwise distinct, with the full step set every artifact exists, and
an unrequested short is not on disk — whatever the final content is. -/
theorem manifest_facts (env : Env) (req : ProcessRequest) (ts : String) (c cf : Content) :
    Function.Injective (rolePath (splitextBase req.filename) ts) ∧
    (req.create_short = true →
      ∀ r : Role,
        (fsGet (fsSet (pipelineFS env req ts c)
            (rolePath (splitextBase req.filename) ts .final) cf)
          (rolePath (splitextBase req.filename) ts r)).isSome = true) ∧
    (req.create_short = false →
      fsGet env.fs (rolePath (splitextBase req.filename) ts .short) = none →
      fsGet (fsSet (pipelineFS env req ts c)
          (rolePath (splitextBase req.filename) ts .final) cf)
        (rolePath (splitextBase req.filename) ts .short) = none) := by
  refine ⟨fun r₁ r₂ h => (rolePath_inj h).1, ?_, ?_⟩
  · intro hcs r
    cases r <;> simp [pipelineFS, pipeline3FS, hcs]
  · intro hcs h_fresh
    simp [pipelineFS, pipeline3FS, hcs, h_fresh]

/-- C2 (amended): for every job with valid input and a healthy transcoder —
whatever step set is requested — the returned manifest contains exactly the
five roles, and the five artifact paths are pairwise distinct; with the full
step set requested every artifact exists; the manifest, however, always
lists all five roles: when create_short is false the short role is still
present and references a path that was never created. -/
theorem C2_manifest_roles (env : Env) (req : ProcessRequest) (ts jid : String) (c : Content)
    (h_in : fsGet env.fs ("uploads/" ++ req.filename) = some c)
    (h_f : ∀ op, env.ffmpegFails op = false) :
    ∃ cf,
      process_video env req ts jid =
        (fsSet (pipelineFS env req ts c) (rolePath (splitextBase req.filename) ts .final) cf,
         .ok ⟨true, jid, dlFor (splitextBase req.filename) ts⟩) ∧
      Function.Injective (rolePath (splitextBase req.filename) ts) ∧
      (req.create_short = true →
        ∀ r : Role,
          (fsGet (fsSet (pipelineFS env req ts c)
              (rolePath (splitextBase req.filename) ts .final) cf)
            (rolePath (splitextBase req.filename) ts r)).isSome = true) ∧
      (req.create_short = false →
        fsGet env.fs (rolePath (splitextBase req.filename) ts .short) = none →
        fsGet (fsSet (pipelineFS env req ts c)
            (rolePath (splitextBase req.filename) ts .final) cf)
          (rolePath (splitextBase req.filename) ts .short) = none) := by
  by_cases hrv : req.replace_voice = true
  · match hvf : req.voice_file with
    | none =>
        have h_copy : (req.replace_voice && pyTruthy req.voice_file) = false := by
          simp [hvf, pyTruthy]
        exact ⟨c, by simp only [process_video,
            processBody_fallback env req ts jid c h_in h_f h_copy],
          manifest_facts env req ts c c⟩
    | some v =>
        by_cases hv : v = ""
        · have h_copy : (req.replace_voice && pyTruthy req.voice_file) = false := by
            simp [hvf, hv, pyTruthy]
          exact ⟨c, by simp only [process_video,
              processBody_fallback env req ts jid c h_in h_f h_copy],
            manifest_facts env req ts c c⟩
        · match hvp : fsGet env.fs ("uploads/" ++ v) with
          | none =>
              exact ⟨c, by simp only [process_video,
                  processBody_voice_missing env req ts jid c v h_in h_f hrv hvf hv hvp],
                manifest_facts env req ts c c⟩
          | some cv =>
              exact ⟨.muxed c cv, by simp only [process_video,
                  processBody_voice_present env req ts jid c cv v h_in h_f hrv hvf hv hvp],
                manifest_facts env req ts c (.muxed c cv)⟩
  · have hrv' : req.replace_voice = false := by
      revert hrv
      cases req.replace_voice <;> simp
    have h_copy : (req.replace_voice && pyTruthy req.voice_file) = false := by simp [hrv']
    exact ⟨c, by simp only [process_video,
        processBody_fallback env req ts jid c h_in h_f h_copy],
      manifest_facts env req ts c c⟩

/-- C2 witness: the manifest facts at a concrete full-step input. -/
theorem C2_witness :
    ∃ cf,
      process_video envOk reqA "100" "w2" =
        (fsSet (pipelineFS envOk reqA "100" (.bytes 0))
          (rolePath (splitextBase reqA.filename) "100" .final) cf,
         .ok ⟨true, "w2", dlFor (splitextBase reqA.filename) "100"⟩) ∧
      Function.Injective (rolePath (splitextBase reqA.filename) "100") ∧
      (reqA.create_short = true →
        ∀ r : Role,
          (fsGet (fsSet (pipelineFS envOk reqA "100" (.bytes 0))
              (rolePath (splitextBase reqA.filename) "100" .final) cf)
            (rolePath (splitextBase reqA.filename) "100" r)).isSome = true) ∧
      (reqA.create_short = false →
        fsGet envOk.fs (rolePath (splitextBase reqA.filename) "100" .short) = none →
        fsGet (fsSet (pipelineFS envOk reqA "100" (.bytes 0))
            (rolePath (splitextBase reqA.filename) "100" .final) cf)
          (rolePath (splitextBase reqA.filename) "100" .short) = none) :=
  C2_manifest_roles envOk reqA "100" "w2" (.bytes 0) rfl (fun _ => rfl)

/-- C3 counterexample: the same job submitted twice in the same second
(distinct job ids) produces identical output filenames — the second
invocation's names do not differ from the first's, and the paths are
re-written. -/
theorem C3_counterexample :
    run1.2.toOption.map (fun r => r.downloads) =
      some ⟨"/download/a_enhanced_100.mp4", "/download/a_nowm_100.mp4",
            "/download/a_audio_100.mp3", "/download/a_short_100.mp4",
            "/download/a_final_100.mp4"⟩ ∧
    run2.2.toOption.map (fun r => r.downloads) =
      some ⟨"/download/a_enhanced_100.mp4", "/download/a_nowm_100.mp4",
            "/download/a_audio_100.mp3", "/download/a_short_100.mp4",
            "/download/a_final_100.mp4"⟩ ∧
    run1.2.toOption.map (fun r => r.job_id) = some "job-1" ∧
    run2.2.toOption.map (fun r => r.job_id) = some "job-2" := ⟨rfl, rfl, rfl, rfl⟩

/-- C3 (amended): output filenames embed the input's base name and the
second-resolution timestamp (the job id is not embedded); invocations whose
timestamps differ can never collide on any pair of artifact paths. -/
theorem C3_distinct_timestamps_no_collision (b t₁ t₂ : String) (h : t₁ ≠ t₂)
    (r₁ r₂ : Role) : rolePath b t₁ r₁ ≠ rolePath b t₂ r₂ :=
  fun he => h (rolePath_inj he).2

/-- C3 witness: two concrete timestamps one second apart. -/
theorem C3_witness :
    "100" ≠ "101" ∧ rolePath "a" "100" .final ≠ rolePath "a" "101" .final :=
  ⟨by decide, C3_distinct_timestamps_no_collision "a" "100" "101" (by decide) .final .final⟩

/-- C4: voice replacement requested with a voice reference that does not
exist in the upload directory degrades to the fallback: the job succeeds
and the final artifact's bytes equal the no_watermark artifact's bytes. -/
theorem C4_missing_voice_falls_back (env : Env) (req : ProcessRequest) (ts jid : String)
    (c : Content) (v : String)
    (h_in : fsGet env.fs ("uploads/" ++ req.filename) = some c)
    (h_f : ∀ op, env.ffmpegFails op = false)
    (h_rv : req.replace_voice = true)
    (h_vf : req.voice_file = some v)
    (h_vne : v ≠ "")
    (h_nv : fsGet env.fs ("uploads/" ++ v) = none) :
    process_video env req ts jid =
      (fsSet (pipelineFS env req ts c) (rolePath (splitextBase req.filename) ts .final) c,
       .ok ⟨true, jid, dlFor (splitextBase req.filename) ts⟩) ∧
    fsGet (fsSet (pipelineFS env req ts c) (rolePath (splitextBase req.filename) ts .final) c)
      (rolePath (splitextBase req.filename) ts .final) = some c ∧
    fsGet (fsSet (pipelineFS env req ts c) (rolePath (splitextBase req.filename) ts .final) c)
      (rolePath (splitextBase req.filename) ts .no_watermark) = some c := by
  have hb := processBody_voice_missing env req ts jid c v h_in h_f h_rv h_vf h_vne h_nv
  refine ⟨by simp only [process_video, hb], by simp, ?_⟩
  cases hcs : req.create_short <;> simp [pipelineFS, pipeline3FS, hcs]

/-- C4 witness: the fallback at a concrete input with v.mp3 absent. -/
theorem C4_witness :
    process_video envOk reqV "100" "w4" =
      (fsSet (pipelineFS envOk reqV "100" (.bytes 0))
        (rolePath (splitextBase reqV.filename) "100" .final) (.bytes 0),
       .ok ⟨true, "w4", dlFor (splitextBase reqV.filename) "100"⟩) ∧
    fsGet (fsSet (pipelineFS envOk reqV "100" (.bytes 0))
        (rolePath (splitextBase reqV.filename) "100" .final) (.bytes 0))
      (rolePath (splitextBase reqV.filename) "100" .final) = some (.bytes 0) :=
  ⟨(C4_missing_voice_falls_back envOk reqV "100" "w4" (.bytes 0) "v.mp3"
      rfl (fun _ => rfl) rfl rfl (by decide) rfl).1,
   (C4_missing_voice_falls_back envOk reqV "100" "w4" (.bytes 0) "v.mp3"
      rfl (fun _ => rfl) rfl rfl (by decide) rfl).2.1⟩

/-- C7: when voice replacement is requested and the voice reference
resolves, the final artifact is the mux of the watermark-cleaned bytes
(which equal the input's bytes, remove_watermark being a copy-through) with
the voice audio; in every other configuration final is a plain copy of the
no_watermark artifact. -/
theorem C7_final_basis (env : Env) (req : ProcessRequest) (ts jid : String) (c : Content)
    (h_in : fsGet env.fs ("uploads/" ++ req.filename) = some c)
    (h_f : ∀ op, env.ffmpegFails op = false) :
    (∀ v cv, req.replace_voice = true → req.voice_file = some v → v ≠ "" →
      fsGet env.fs ("uploads/" ++ v) = some cv →
      process_video env req ts jid =
        (fsSet (pipelineFS env req ts c) (rolePath (splitextBase req.filename) ts .final)
          (.muxed c cv),
         .ok ⟨true, jid, dlFor (splitextBase req.filename) ts⟩) ∧
      fsGet (fsSet (pipelineFS env req ts c)
          (rolePath (splitextBase req.filename) ts .final) (.muxed c cv))
        (rolePath (splitextBase req.filename) ts .no_watermark) = some c) ∧
    ((req.replace_voice = false ∨ req.voice_file = none) →
      process_video env req ts jid =
        (fsSet (pipelineFS env req ts c) (rolePath (splitextBase req.filename) ts .final) c,
         .ok ⟨true, jid, dlFor (splitextBase req.filename) ts⟩) ∧
      fsGet (fsSet (pipelineFS env req ts c)
          (rolePath (splitextBase req.filename) ts .final) c)
        (rolePath (splitextBase req.filename) ts .final) = some c ∧
      fsGet (fsSet (pipelineFS env req ts c)
          (rolePath (splitextBase req.filename) ts .final) c)
        (rolePath (splitextBase req.filename) ts .no_watermark) = some c) := by
  constructor
  · intro v cv h_rv h_vf h_vne h_v
    have hb := processBody_voice_present env req ts jid c cv v h_in h_f h_rv h_vf h_vne h_v
    refine ⟨by simp only [process_video, hb], ?_⟩
    cases hcs : req.create_short <;> simp [pipelineFS, pipeline3FS, hcs]
  · intro hor
    have h_copy : (req.replace_voice && pyTruthy req.voice_file) = false := by
      rcases hor with h | h <;> simp [h, pyTruthy]
    have hb := processBody_fallback env req ts jid c h_in h_f h_copy
    refine ⟨by simp only [process_video, hb], by simp, ?_⟩
    cases hcs : req.create_short <;> simp [pipelineFS, pipeline3FS, hcs]

/-- C7 witness: the mux case at a concrete input where v.mp3 exists. -/
theorem C7_witness :
    process_video envV reqV "100" "w7" =
      (fsSet (pipelineFS envV reqV "100" (.bytes 0))
        (rolePath (splitextBase reqV.filename) "100" .final) (.muxed (.bytes 0) (.bytes 7)),
       .ok ⟨true, "w7", dlFor (splitextBase reqV.filename) "100"⟩) ∧
    fsGet (fsSet (pipelineFS envV reqV "100" (.bytes 0))
        (rolePath (splitextBase reqV.filename) "100" .final) (.muxed (.bytes 0) (.bytes 7)))
      (rolePath (splitextBase reqV.filename) "100" .no_watermark) = some (.bytes 0) :=
  (C7_final_basis envV reqV "100" "w7" (.bytes 0) rfl (fun _ => rfl)).1 "v.mp3" (.bytes 7)
    rfl rfl (by decide) rfl

/-- C8 counterexample: the endpoint passes the all-on record for
enhance = true and the all-off record for enhance = false, and the mixed
combination (denoise on, sharpen off, color on) is selected by neither
value of the only flag the options depend on. -/
theorem C8_counterexample :
    endpointEnhanceOptions ⟨"a.mp4", none, true, false, false, true⟩ = ⟨true, true, true⟩ ∧
    endpointEnhanceOptions ⟨"a.mp4", none, false, false, false, true⟩ =
      ⟨false, false, false⟩ ∧
    ([true, false].all fun b =>
      endpointEnhanceOptions ⟨"a.mp4", none, b, false, false, true⟩ ≠
        (⟨true, false, true⟩ : EnhanceOptions)) = true := ⟨rfl, rfl, by decide⟩

/-- C8 (amended): enhance_video applies exactly the enabled filters — each
of the three is independently toggle-able at the options level — but the
endpoint's job parameters tie all three sub-filters to the single
request.enhance boolean, so only the all-on and all-off combinations are
selectable per job. -/
theorem C8_filters_and_endpoint :
    (∀ o : EnhanceOptions,
      ("hqdn3d=1.5:1.5:6:6" ∈ enhanceFilters o ↔ o.denoise = true) ∧
      ("unsharp=5:5:0.8:3:3:0.4" ∈ enhanceFilters o ↔ o.sharpen = true) ∧
      ("eq=contrast=1.05:brightness=0.02:saturation=1.05" ∈ enhanceFilters o ↔
        o.color_correct = true)) ∧
    (∀ req : ProcessRequest,
      endpointEnhanceOptions req = ⟨req.enhance, req.enhance, req.enhance⟩) := by
  constructor
  · intro o
    obtain ⟨d, s, cc⟩ := o
    cases d <;> cases s <;> cases cc <;> exact ⟨by decide, by decide, by decide⟩
  · intro req
    rfl

end VikasAI
